import Mathlib

/-!
Verification of the job-submission and polling lifecycle of HordeNG's
GenerateImageComponent (src/unnamed/part_000).  The component state and the
three operations that drive the lifecycle (the interval poll tick inside
ngOnInit, generateImage, downloadImages) are embedded as pure state-passing
functions.  External collaborators (the Horde API, the HTTP client, the
browser object-URL allocator) are passed in as explicit response values, and
each operation returns the new state together with the ordered trace of
side effects it performed and an optional propagated exception.
-/

namespace HordeNG

/-- Modelled from the spec: the type file types/db/job-in-progress is not in
src; the spec describes JobInProgress as an identifier plus submission
metadata returned by the API on successful submission.  Only the identifier
is observable in the inspected code (response.successResponse!.id). -/
structure JobInProgress where
  id : String
  deriving DecidableEq, Repr

/-- JobMetadata as used by the component: requestId plus the cached
width/height captured at submission time (types/job-metadata is not in src;
the spec gives exactly these three fields). -/
structure JobMetadata where
  requestId : String
  width : Int
  height : Int
  deriving DecidableEq, Repr

/-- Modelled from the spec: types/horde/request-status-check is not in src;
the polling snapshot carries is_possible and done, the only fields the
component reads. -/
structure RequestStatusCheck where
  is_possible : Bool
  done : Bool
  deriving DecidableEq, Repr

/-- One generation entry of a completed job, with the fields the component
reads in downloadImages (the type file is not in src). -/
structure GenerationResult where
  img : String
  worker_id : String
  worker_name : String
  model : String
  seed : String
  id : String
  censored : Bool
  deriving DecidableEq, Repr

/-- Modelled from the spec: types/horde/request-status-full is not in src;
the result payload carries the generation list and the kudos cost. -/
structure RequestStatusFull where
  generations : List GenerationResult
  kudos : Int
  deriving DecidableEq, Repr

/-- The Result record assembled by downloadImages (interface Result in
part_000).  The binary handle `source` is modelled as the numeric identity
of the object URL allocated for it. -/
structure Result where
  width : Int
  height : Int
  source : Nat
  workerId : String
  workerName : String
  model : String
  seed : String
  id : String
  censored : Bool
  kudos : Int
  deriving DecidableEq, Repr

/-- Modelled from the spec: the Sampler enum file is not in src; the code
only names k_dpmpp_sde (the form default). -/
inductive Sampler where
  | k_dpmpp_sde
  | k_euler
  | k_euler_a
  | k_heun
  | k_lms
  deriving DecidableEq, Repr

/-- The raw form value: every control may be null (Option), mirroring
Angular FormControl values before formAsOptions applies defaults. -/
structure FormValue where
  prompt : Option String
  negativePrompt : Option String
  sampler : Option Sampler
  cfgScale : Option Rat
  denoisingStrength : Option Rat
  height : Option Int
  width : Option Int
  steps : Option Int
  model : Option String
  deriving DecidableEq, Repr

/-- GenerationOptions as produced by the formAsOptions getter. -/
structure GenerationOptions where
  prompt : String
  negativePrompt : Option String
  sampler : Sampler
  cfgScale : Rat
  denoisingStrength : Rat
  height : Int
  width : Int
  steps : Int
  model : String
  karras : Bool
  deriving DecidableEq, Repr

/-- An API call outcome as seen through toPromise: either the success
payload or an error response carrying message and rc. -/
inductive ApiResponse (α : Type) where
  | success (value : α)
  | failure (message : String) (rc : Nat)
  deriving DecidableEq, Repr

/-- Outcome of one binary HTTP GET: the observable errors (the promise
rejects), or a response arrives whose body may be null. -/
inductive FetchOutcome where
  | failure
  | success (body : Option Nat)
  deriving DecidableEq, Repr

/-- Observable side effects of the component, in the order they are
performed: outgoing network calls, persistence mutations, user-facing
error messages, and object-URL revocations. -/
inductive Effect where
  | checkStatus (jobId : String)
  | cancelJob (jobId : String)
  | fetchResult (jobId : String)
  | deleteJob (jobId : String)
  | addJob (jobId : String)
  | storeMetadata (m : JobMetadata)
  | errorMsg (key : String)
  | fetchImage (url : String)
  | revokeUrl (u : Nat)
  | submitJob
  deriving DecidableEq, Repr

/-- Component state plus the persisted collaborator state it owns: the
signals of GenerateImageComponent (loading, inProgress, result,
requestStatus, the form) together with the database's in-progress job list
and metadata store, and the browser's object-URL allocator state (next
fresh handle, set of revoked handles). -/
structure ComponentState where
  loading : Bool
  inProgress : Option JobInProgress
  result : Option Result
  requestStatus : Option RequestStatusCheck
  form : FormValue
  dbJobs : List JobInProgress
  dbMeta : List JobMetadata
  nextUrl : Nat
  revoked : List Nat
  deriving DecidableEq, Repr

/-- Result of running one operation: successor state, ordered effect
trace, and the exception it propagated, if any. -/
structure StepResult where
  state : ComponentState
  effects : List Effect
  threw : Option String
  deriving DecidableEq, Repr

/-- Modelled from the spec: DatabaseService is not in src; per spec section 6
deleteInProgressJob removes the persisted record of the given job. -/
def deleteInProgressJob (jobs : List JobInProgress) (job : JobInProgress) : List JobInProgress :=
  jobs.filter (fun j => j.id != job.id)

/-- Modelled from the spec: DatabaseService is not in src; addInProgressJob
persists the submitted job record. -/
def addInProgressJob (jobs : List JobInProgress) (job : JobInProgress) : List JobInProgress :=
  jobs ++ [job]

/-- Modelled from the spec: DatabaseService is not in src; getJobMetadata
retrieves the metadata cached for the given job's request id. -/
def getJobMetadata (meta : List JobMetadata) (job : JobInProgress) : Option JobMetadata :=
  meta.find? (fun m => m.requestId == job.id)

/-- Modelled from the spec: DatabaseService is not in src; storeJobMetadata
caches the metadata record keyed by its request id. -/
def storeJobMetadata (meta : List JobMetadata) (m : JobMetadata) : List JobMetadata :=
  m :: meta.filter (fun x => x.requestId != m.requestId)

/-- Angular Validators.required on a string control: fails on null and on
the empty string. -/
def requiredStr : Option String → Bool
  | none => false
  | some s => s != ""

/-- form.valid: the conjunction of the validators attached to the controls
in part_000 lines 69-106.  Modelled from the spec: AppValidators.divisibleBy
is not in src; per the spec it requires divisibility by its argument. -/
def formValid (f : FormValue) : Bool :=
  requiredStr f.prompt
  && f.sampler.isSome
  && (match f.cfgScale with
      | none => false
      | some v => decide (0 ≤ v) && decide (v ≤ 100))
  && (match f.denoisingStrength with
      | none => true
      | some v => decide ((1 : Rat)/100 ≤ v) && decide (v ≤ 1))
  && (match f.height with
      | none => false
      | some v => decide (64 ≤ v) && decide (v ≤ 3072) && decide (v % 64 = 0))
  && (match f.width with
      | none => false
      | some v => decide (64 ≤ v) && decide (v ≤ 3072) && decide (v % 64 = 0))
  && (match f.steps with
      | none => false
      | some v => decide (1 ≤ v) && decide (v ≤ 500))
  && requiredStr f.model

/-- The formAsOptions getter: each null control value is replaced by its
hard-coded default; karras is hard-coded true. -/
def formAsOptions (f : FormValue) : GenerationOptions :=
  { prompt := f.prompt.getD ""
    negativePrompt := f.negativePrompt
    sampler := f.sampler.getD Sampler.k_dpmpp_sde
    cfgScale := f.cfgScale.getD ((3 : Rat)/4)
    denoisingStrength := f.denoisingStrength.getD ((3 : Rat)/4)
    height := f.height.getD 512
    width := f.width.getD 512
    steps := f.steps.getD 30
    model := f.model.getD ""
    karras := true }

/-- True when some fetched response in the list is a rejected promise, in
which case the Promise.all in downloadImages rejects. -/
def anyFailed (responses : List FetchOutcome) : Bool :=
  responses.any (fun r => match r with
    | FetchOutcome.failure => true
    | _ => false)

/-- GenerateImageComponent.downloadImages: issue one GET per generation
entry, await them all (a single rejection propagates as an exception), read
the first response body (an empty generation list makes responses[0]
undefined, a TypeError), report a user-facing error on a null body, and
otherwise assemble the Result from the first generation entry, the cached
metadata (reading a field of an absent metadata record is a TypeError) and
a freshly allocated object URL. -/
def downloadImages (st : ComponentState) (result : RequestStatusFull)
    (metadata : Option JobMetadata) (fetch : String → FetchOutcome) : StepResult :=
  let fxs := result.generations.map (fun g => Effect.fetchImage g.img)
  if anyFailed (result.generations.map (fun g => fetch g.img)) then
    { state := st, effects := fxs, threw := some "fetch rejected" }
  else
    match result.generations with
    | [] =>
      { state := st, effects := fxs,
        threw := some "TypeError: cannot read body of undefined" }
    | g :: _ =>
      match fetch g.img with
      | FetchOutcome.failure =>
        { state := st, effects := fxs, threw := some "fetch rejected" }
      | FetchOutcome.success none =>
        { state := st,
          effects := fxs ++ [Effect.errorMsg "app.error.image_download_failed"],
          threw := none }
      | FetchOutcome.success (some _) =>
        match metadata with
        | none =>
          { state := st, effects := fxs,
            threw := some "TypeError: cannot read width of undefined" }
        | some m =>
          { state := { st with
              result := some {
                source := st.nextUrl,
                width := m.width,
                height := m.height,
                workerId := g.worker_id,
                model := g.model,
                censored := g.censored,
                workerName := g.worker_name,
                seed := g.seed,
                id := g.id,
                kudos := result.kudos },
              nextUrl := st.nextUrl + 1 },
            effects := fxs, threw := none }

/-- One tick of the interval(1_000) subscription in ngOnInit (part_000
lines 146-193): no-op without an in-memory job; otherwise one status
check, then either surface an API error, cancel and delete an impossible
job, or on done fetch the result, download the images and delete the
finished job record. -/
def pollTick (st : ComponentState) (statusResp : ApiResponse RequestStatusCheck)
    (resultResp : ApiResponse RequestStatusFull)
    (fetch : String → FetchOutcome) : StepResult :=
  match st.inProgress with
  | none => { state := st, effects := [], threw := none }
  | some job =>
    let fx0 := [Effect.checkStatus job.id]
    match statusResp with
    | ApiResponse.failure _ _ =>
      { state := st, effects := fx0 ++ [Effect.errorMsg "app.error.api_error"],
        threw := none }
    | ApiResponse.success status =>
      let st1 := { st with requestStatus := some status }
      if !status.is_possible then
        { state := { st1 with
            dbJobs := deleteInProgressJob st1.dbJobs job,
            inProgress := none },
          effects := fx0 ++ [Effect.cancelJob job.id, Effect.deleteJob job.id,
            Effect.errorMsg "app.error.generate.impossible"],
          threw := none }
      else if status.done then
        let st2 := { st1 with loading := true }
        match (match st2.inProgress with
               | some j => some j
               | none => st2.dbJobs.head?) with
        | none => { state := st2, effects := fx0, threw := some "Job cannot be null" }
        | some job2 =>
          let fx1 := fx0 ++ [Effect.fetchResult job2.id]
          match resultResp with
          | ApiResponse.failure _ _ =>
            { state := { st2 with loading := false },
              effects := fx1 ++ [Effect.errorMsg "app.error.api_error"],
              threw := none }
          | ApiResponse.success result =>
            let dl := downloadImages st2 result (getJobMetadata st2.dbMeta job2) fetch
            match dl.threw with
            | some e => { state := dl.state, effects := fx1 ++ dl.effects, threw := some e }
            | none =>
              match dl.state.inProgress with
              | some j =>
                { state := { dl.state with
                    dbJobs := deleteInProgressJob dl.state.dbJobs j,
                    inProgress := none,
                    loading := false },
                  effects := fx1 ++ dl.effects ++ [Effect.deleteJob j.id],
                  threw := none }
              | none =>
                { state := { dl.state with loading := false },
                  effects := fx1 ++ dl.effects, threw := none }
      else
        { state := st1, effects := fx0, threw := none }

/-- GenerateImageComponent.generateImage (part_000 lines 196-225): reject
an invalid form, reject when a job is in progress, otherwise revoke the
previous result's object URL, clear the result, submit, and on success
persist the job record and its metadata and set the in-memory job. -/
def generateImage (st : ComponentState) (resp : ApiResponse JobInProgress) : StepResult :=
  if !formValid st.form then
    { state := st, effects := [Effect.errorMsg "app.error.form_invalid"], threw := none }
  else if st.inProgress.isSome then
    { state := st, effects := [Effect.errorMsg "app.error.generation_in_progress"],
      threw := none }
  else
    let st1 := { st with loading := true }
    let revokePair : ComponentState × List Effect :=
      match st1.result with
      | some r => ({ st1 with revoked := r.source :: st1.revoked }, [Effect.revokeUrl r.source])
      | none => (st1, [])
    let st2 := { revokePair.1 with result := none }
    let opts := formAsOptions st2.form
    match resp with
    | ApiResponse.failure _ _ =>
      { state := { st2 with loading := false },
        effects := revokePair.2 ++ [Effect.submitJob, Effect.errorMsg "app.error.api_error"],
        threw := none }
    | ApiResponse.success job =>
      let meta : JobMetadata := { requestId := job.id, height := opts.height, width := opts.width }
      { state := { st2 with
          dbJobs := addInProgressJob st2.dbJobs job,
          dbMeta := storeJobMetadata st2.dbMeta meta,
          inProgress := some job,
          loading := false },
        effects := revokePair.2 ++ [Effect.submitJob, Effect.addJob job.id,
          Effect.storeMetadata meta],
        threw := none }

/-- The inputs consumed by one poll tick: the status-check response, the
result-fetch response and the binary fetch outcomes (the latter two are
only consulted in the done branch). -/
structure TickInput where
  statusResp : ApiResponse RequestStatusCheck
  resultResp : ApiResponse RequestStatusFull
  fetch : String → FetchOutcome

/-- Run a sequence of poll ticks, threading the state and concatenating
the effect traces (the interval keeps firing regardless of the outcome of
an individual tick). -/
def runTicks (st : ComponentState) : List TickInput → ComponentState × List Effect
  | [] => (st, [])
  | t :: ts =>
    let r := pollTick st t.statusResp t.resultResp t.fetch
    let rest := runTicks r.state ts
    (rest.1, r.effects ++ rest.2)

def isCancel : Effect → Bool
  | Effect.cancelJob _ => true
  | _ => false

def isResultFetch : Effect → Bool
  | Effect.fetchResult _ => true
  | _ => false

def isSubmit : Effect → Bool
  | Effect.submitJob => true
  | _ => false

def isErrorMsg : Effect → Bool
  | Effect.errorMsg _ => true
  | _ => false

/-- Number of cancellation API calls in an effect trace. -/
def countCancels (fx : List Effect) : Nat := fx.countP isCancel

/-- Number of result-fetch API calls in an effect trace. -/
def countResultFetches (fx : List Effect) : Nat := fx.countP isResultFetch

/-- Number of submission API calls in an effect trace. -/
def countSubmits (fx : List Effect) : Nat := fx.countP isSubmit

/-- An effect trace without any user-facing error message. -/
def noUserError (fx : List Effect) : Bool :=
  fx.all (fun e => !isErrorMsg e)

/-- The displayed Result's binary handle is live: it was never revoked and
is older than the allocator frontier, and every revoked handle is older
than the frontier (so a freshly allocated handle never aliases a released
one). -/
def handlesOk (st : ComponentState) : Prop :=
  (∀ r, st.result = some r → r.source < st.nextUrl ∧ r.source ∉ st.revoked)
  ∧ (∀ u ∈ st.revoked, u < st.nextUrl)

/-! Concrete sample values used to exercise the definitions. -/

def exJob : JobInProgress := { id := "job-1" }

def exMeta : JobMetadata := { requestId := "job-1", width := 64, height := 128 }

def exGen : GenerationResult :=
  { img := "https://img.example/0", worker_id := "w-7", worker_name := "worker-seven",
    model := "test-model", seed := "12345", id := "gen-0", censored := false }

def exGen2 : GenerationResult :=
  { img := "https://img.example/1", worker_id := "w-8", worker_name := "worker-eight",
    model := "other-model", seed := "777", id := "gen-1", censored := true }

def exRes : RequestStatusFull := { generations := [exGen, exGen2], kudos := 10 }

def exForm : FormValue :=
  { prompt := some "a cat", negativePrompt := none, sampler := some Sampler.k_dpmpp_sde,
    cfgScale := some 7, denoisingStrength := some 1, height := some 128, width := some 64,
    steps := some 30, model := some "test-model" }

def stNotDone : RequestStatusCheck := { is_possible := true, done := false }

def stDone : RequestStatusCheck := { is_possible := true, done := true }

def stImpossible : RequestStatusCheck := { is_possible := false, done := false }

def fetchOk : String → FetchOutcome := fun _ => FetchOutcome.success (some 5)

def fetchNull : String → FetchOutcome := fun _ => FetchOutcome.success none

def fetchFail : String → FetchOutcome := fun _ => FetchOutcome.failure

/-- Idle component: no job in flight, nothing persisted. -/
def exStateIdle : ComponentState :=
  { loading := false, inProgress := none, result := none, requestStatus := none,
    form := exForm, dbJobs := [], dbMeta := [], nextUrl := 0, revoked := [] }

/-- Component with exJob in flight, its record persisted and its metadata cached. -/
def exStateJob : ComponentState :=
  { loading := false, inProgress := some exJob, result := none, requestStatus := none,
    form := exForm, dbJobs := [exJob], dbMeta := [exMeta], nextUrl := 0, revoked := [] }

/-- A previously materialized Result displayed while idle. -/
def exResult : Result :=
  { width := 64, height := 128, source := 0, workerId := "w-7", workerName := "worker-seven",
    model := "test-model", seed := "12345", id := "gen-0", censored := false, kudos := 10 }

/-- Idle component still displaying exResult (allocator frontier past its handle). -/
def exStateShown : ComponentState :=
  { loading := false, inProgress := none, result := some exResult, requestStatus := none,
    form := exForm, dbJobs := [], dbMeta := [], nextUrl := 1, revoked := [] }

/-! Helper lemmas characterizing the branches of the operations. -/

theorem anyFailed_eq_false (l : List FetchOutcome)
    (h : ∀ r ∈ l, r ≠ FetchOutcome.failure) : anyFailed l = false := by
  induction l with
  | nil => rfl
  | cons a t ih =>
    have ha := h a (by simp)
    have ht : ∀ r ∈ t, r ≠ FetchOutcome.failure := fun r hr => h r (by simp [hr])
    cases a with
    | failure => exact absurd rfl ha
    | success b => simpa [anyFailed] using ih ht

theorem anyFailed_eq_true (l : List FetchOutcome)
    (h : ∃ r ∈ l, r = FetchOutcome.failure) : anyFailed l = true := by
  obtain ⟨r, hr, he⟩ := h
  subst he
  induction l with
  | nil => simp at hr
  | cons a t ih =>
    rcases List.mem_cons.mp hr with h1 | h2
    · subst h1; rfl
    · cases a with
      | failure => rfl
      | success b => simpa [anyFailed] using ih h2

theorem anyFailed_cons_success (b : Option Nat) (l : List FetchOutcome) :
    anyFailed (FetchOutcome.success b :: l) = anyFailed l := by
  simp [anyFailed]

theorem countP_cancel_fetchImages (l : List GenerationResult) :
    List.countP isCancel (l.map (fun g => Effect.fetchImage g.img)) = 0 := by
  simp [List.countP_eq_zero, isCancel]

theorem countP_resultFetch_fetchImages (l : List GenerationResult) :
    List.countP isResultFetch (l.map (fun g => Effect.fetchImage g.img)) = 0 := by
  simp [List.countP_eq_zero, isResultFetch]

theorem noUserError_fetchImages (l : List GenerationResult) :
    noUserError (l.map (fun g => Effect.fetchImage g.img)) = true := by
  simp [noUserError, isErrorMsg]

theorem deleteInProgressJob_self (job : JobInProgress) :
    deleteInProgressJob [job] job = [] := by
  simp [deleteInProgressJob]

theorem formValid_exForm : formValid exForm = true := by
  simp [formValid, exForm, requiredStr]
  norm_num

theorem downloadImages_anyFailed (st : ComponentState) (res : RequestStatusFull)
    (meta : Option JobMetadata) (fetch : String → FetchOutcome)
    (hfail : anyFailed (res.generations.map (fun x => fetch x.img)) = true) :
    downloadImages st res meta fetch =
      { state := st, effects := res.generations.map (fun x => Effect.fetchImage x.img),
        threw := some "fetch rejected" } := by
  unfold downloadImages
  simp [hfail]

theorem downloadImages_ok (st : ComponentState) (res : RequestStatusFull)
    (m : JobMetadata) (g : GenerationResult) (rest : List GenerationResult)
    (fetch : String → FetchOutcome) (b : Nat)
    (hg : res.generations = g :: rest)
    (hf : ∀ x ∈ res.generations, fetch x.img ≠ FetchOutcome.failure)
    (hb : fetch g.img = FetchOutcome.success (some b)) :
    downloadImages st res (some m) fetch =
      { state := { st with
          result := some {
            source := st.nextUrl, width := m.width, height := m.height,
            workerId := g.worker_id, model := g.model, censored := g.censored,
            workerName := g.worker_name, seed := g.seed, id := g.id, kudos := res.kudos },
          nextUrl := st.nextUrl + 1 },
        effects := (g :: rest).map (fun x => Effect.fetchImage x.img),
        threw := none } := by
  have hrest : anyFailed (rest.map (fun x => fetch x.img)) = false := by
    apply anyFailed_eq_false
    intro r hr
    rw [List.mem_map] at hr
    obtain ⟨x, hx, hxe⟩ := hr
    rw [← hxe]
    exact hf x (by rw [hg]; exact List.mem_cons_of_mem g hx)
  unfold downloadImages
  rw [hg]
  simp [hb, anyFailed_cons_success, hrest]

theorem downloadImages_nullBody (st : ComponentState) (res : RequestStatusFull)
    (meta : Option JobMetadata) (g : GenerationResult) (rest : List GenerationResult)
    (fetch : String → FetchOutcome)
    (hg : res.generations = g :: rest)
    (hf : ∀ x ∈ res.generations, fetch x.img ≠ FetchOutcome.failure)
    (hb : fetch g.img = FetchOutcome.success none) :
    downloadImages st res meta fetch =
      { state := st,
        effects := (g :: rest).map (fun x => Effect.fetchImage x.img)
          ++ [Effect.errorMsg "app.error.image_download_failed"],
        threw := none } := by
  have hrest : anyFailed (rest.map (fun x => fetch x.img)) = false := by
    apply anyFailed_eq_false
    intro r hr
    rw [List.mem_map] at hr
    obtain ⟨x, hx, hxe⟩ := hr
    rw [← hxe]
    exact hf x (by rw [hg]; exact List.mem_cons_of_mem g hx)
  unfold downloadImages
  rw [hg]
  simp [hb, anyFailed_cons_success, hrest]

theorem downloadImages_threw_ne (st : ComponentState) (res : RequestStatusFull)
    (meta : Option JobMetadata) (fetch : String → FetchOutcome) :
    (downloadImages st res meta fetch).threw ≠ some "Job cannot be null" := by
  unfold downloadImages
  by_cases hfail : anyFailed (res.generations.map (fun x => fetch x.img)) = true
  · simp [hfail]
  · simp only [Bool.not_eq_true] at hfail
    simp only [hfail, if_false, Bool.false_eq_true]
    cases hg : res.generations with
    | nil => simp
    | cons g rest =>
      cases hb : fetch g.img with
      | failure =>
        exfalso
        rw [hg, List.map_cons, hb] at hfail
        simp [anyFailed] at hfail
      | success body =>
        cases body with
        | none => simp [hb]
        | some b =>
          cases meta with
          | none => simp [hb]
          | some m => simp [hb]

theorem handlesOk_downloadImages (st : ComponentState) (res : RequestStatusFull)
    (meta : Option JobMetadata) (fetch : String → FetchOutcome)
    (h1 : st.result = none) (h2 : ∀ u ∈ st.revoked, u < st.nextUrl) :
    handlesOk (downloadImages st res meta fetch).state := by
  have hok : handlesOk st := by
    constructor
    · intro r hr; rw [h1] at hr; cases hr
    · exact h2
  unfold downloadImages
  by_cases hfail : anyFailed (res.generations.map (fun x => fetch x.img)) = true
  · simpa [hfail] using hok
  · simp only [Bool.not_eq_true] at hfail
    simp only [hfail, if_false, Bool.false_eq_true]
    cases hg : res.generations with
    | nil => simpa using hok
    | cons g rest =>
      cases hb : fetch g.img with
      | failure =>
        exfalso
        rw [hg, List.map_cons, hb] at hfail
        simp [anyFailed] at hfail
      | success body =>
        cases body with
        | none => simpa [hb] using hok
        | some b =>
          cases meta with
          | none => simpa [hb] using hok
          | some m =>
            simp only [hb]
            refine ⟨?_, ?_⟩
            · intro r hr
              simp only [Option.some_inj] at hr
              refine ⟨?_, ?_⟩
              · rw [← hr]; exact Nat.lt_succ_self st.nextUrl
              · rw [← hr]
                intro hmem
                exact absurd (h2 st.nextUrl hmem) (Nat.lt_irrefl st.nextUrl)
            · intro u hu
              exact Nat.lt_trans (h2 u hu) (Nat.lt_succ_self st.nextUrl)

theorem pollTick_noJob (st : ComponentState) (sr : ApiResponse RequestStatusCheck)
    (rr : ApiResponse RequestStatusFull) (f : String → FetchOutcome)
    (h : st.inProgress = none) :
    pollTick st sr rr f = { state := st, effects := [], threw := none } := by
  unfold pollTick
  rw [h]

theorem pollTick_statusFail (st : ComponentState) (job : JobInProgress)
    (msg : String) (rc : Nat)
    (rr : ApiResponse RequestStatusFull) (f : String → FetchOutcome)
    (hip : st.inProgress = some job) :
    pollTick st (ApiResponse.failure msg rc) rr f =
      { state := st,
        effects := [Effect.checkStatus job.id, Effect.errorMsg "app.error.api_error"],
        threw := none } := by
  unfold pollTick
  rw [hip]
  rfl

theorem pollTick_continue (st : ComponentState) (job : JobInProgress)
    (status : RequestStatusCheck)
    (rr : ApiResponse RequestStatusFull) (f : String → FetchOutcome)
    (hip : st.inProgress = some job)
    (hposs : status.is_possible = true) (hdone : status.done = false) :
    pollTick st (ApiResponse.success status) rr f =
      { state := { st with requestStatus := some status },
        effects := [Effect.checkStatus job.id], threw := none } := by
  unfold pollTick
  rw [hip]
  simp [hposs, hdone]

theorem pollTick_impossible (st : ComponentState) (job : JobInProgress)
    (status : RequestStatusCheck)
    (rr : ApiResponse RequestStatusFull) (f : String → FetchOutcome)
    (hip : st.inProgress = some job)
    (hposs : status.is_possible = false) :
    pollTick st (ApiResponse.success status) rr f =
      { state := { st with
          requestStatus := some status,
          dbJobs := deleteInProgressJob st.dbJobs job,
          inProgress := none },
        effects := [Effect.checkStatus job.id, Effect.cancelJob job.id,
          Effect.deleteJob job.id, Effect.errorMsg "app.error.generate.impossible"],
        threw := none } := by
  unfold pollTick
  rw [hip]
  simp [hposs]

theorem pollTick_done_fetchFail (st : ComponentState) (job : JobInProgress)
    (status : RequestStatusCheck) (msg : String) (rc : Nat) (f : String → FetchOutcome)
    (hip : st.inProgress = some job)
    (hposs : status.is_possible = true) (hdone : status.done = true) :
    pollTick st (ApiResponse.success status) (ApiResponse.failure msg rc) f =
      { state := { st with
          requestStatus := some status,
          loading := false },
        effects := [Effect.checkStatus job.id, Effect.fetchResult job.id,
          Effect.errorMsg "app.error.api_error"],
        threw := none } := by
  unfold pollTick
  rw [hip]
  simp [hposs, hdone, hip]

theorem pollTick_done_ok (st : ComponentState) (job : JobInProgress)
    (status : RequestStatusCheck) (res : RequestStatusFull)
    (g : GenerationResult) (rest : List GenerationResult)
    (m : JobMetadata) (b : Nat) (fetch : String → FetchOutcome)
    (hip : st.inProgress = some job)
    (hposs : status.is_possible = true) (hdone : status.done = true)
    (hg : res.generations = g :: rest)
    (hf : ∀ x ∈ res.generations, fetch x.img ≠ FetchOutcome.failure)
    (hb : fetch g.img = FetchOutcome.success (some b))
    (hm : getJobMetadata st.dbMeta job = some m) :
    pollTick st (ApiResponse.success status) (ApiResponse.success res) fetch =
      { state := { st with
          requestStatus := some status,
          loading := false,
          result := some {
            source := st.nextUrl, width := m.width, height := m.height,
            workerId := g.worker_id, model := g.model, censored := g.censored,
            workerName := g.worker_name, seed := g.seed, id := g.id, kudos := res.kudos },
          nextUrl := st.nextUrl + 1,
          dbJobs := deleteInProgressJob st.dbJobs job,
          inProgress := none },
        effects := [Effect.checkStatus job.id, Effect.fetchResult job.id]
          ++ (g :: rest).map (fun x => Effect.fetchImage x.img)
          ++ [Effect.deleteJob job.id],
        threw := none } := by
  unfold pollTick
  rw [hip]
  have hdl := downloadImages_ok
    { st with requestStatus := some status, loading := true, inProgress := some job }
    res m g rest fetch b hg hf hb
  simp [hposs, hdone, hip, hm, hdl]

theorem pollTick_done_nullBody (st : ComponentState) (job : JobInProgress)
    (status : RequestStatusCheck) (res : RequestStatusFull)
    (g : GenerationResult) (rest : List GenerationResult)
    (fetch : String → FetchOutcome)
    (hip : st.inProgress = some job)
    (hposs : status.is_possible = true) (hdone : status.done = true)
    (hg : res.generations = g :: rest)
    (hf : ∀ x ∈ res.generations, fetch x.img ≠ FetchOutcome.failure)
    (hb : fetch g.img = FetchOutcome.success none) :
    pollTick st (ApiResponse.success status) (ApiResponse.success res) fetch =
      { state := { st with
          requestStatus := some status,
          loading := false,
          dbJobs := deleteInProgressJob st.dbJobs job,
          inProgress := none },
        effects := [Effect.checkStatus job.id, Effect.fetchResult job.id]
          ++ (g :: rest).map (fun x => Effect.fetchImage x.img)
          ++ [Effect.errorMsg "app.error.image_download_failed", Effect.deleteJob job.id],
        threw := none } := by
  unfold pollTick
  rw [hip]
  have hdl := downloadImages_nullBody
    { st with requestStatus := some status, loading := true, inProgress := some job }
    res (getJobMetadata st.dbMeta job) g rest fetch hg hf hb
  simp [hposs, hdone, hip, hdl]

/-! The claims. -/

/-- C2: on a polling tick whose status check succeeds with is_possible = false,
the loop issues exactly one cancellation request and zero result fetches,
deletes the persisted JobInProgress record, clears the in-memory reference,
surfaces the impossible error, and every later tick is a no-op for this job. -/
theorem C2_impossibleTerminal (st : ComponentState) (job : JobInProgress)
    (status : RequestStatusCheck) (rr : ApiResponse RequestStatusFull)
    (f : String → FetchOutcome)
    (hip : st.inProgress = some job) (hdb : st.dbJobs = [job])
    (hposs : status.is_possible = false) :
    countCancels (pollTick st (ApiResponse.success status) rr f).effects = 1
    ∧ countResultFetches (pollTick st (ApiResponse.success status) rr f).effects = 0
    ∧ (pollTick st (ApiResponse.success status) rr f).state.inProgress = none
    ∧ (pollTick st (ApiResponse.success status) rr f).state.dbJobs = []
    ∧ Effect.errorMsg "app.error.generate.impossible"
        ∈ (pollTick st (ApiResponse.success status) rr f).effects
    ∧ ∀ sr2 rr2 f2, pollTick (pollTick st (ApiResponse.success status) rr f).state sr2 rr2 f2 =
        { state := (pollTick st (ApiResponse.success status) rr f).state,
          effects := [], threw := none } := by
  rw [pollTick_impossible st job status rr f hip hposs]
  refine ⟨?_, ?_, rfl, ?_, ?_, ?_⟩
  · simp [countCancels, List.countP_cons, isCancel]
  · simp [countResultFetches, List.countP_cons, isResultFetch]
  · show deleteInProgressJob st.dbJobs job = []
    rw [hdb]
    exact deleteInProgressJob_self job
  · simp
  · intro sr2 rr2 f2
    exact pollTick_noJob _ sr2 rr2 f2 rfl

/-- C3: a submission with an invalid form or with a job already in flight
surfaces one user-facing error, leaves the whole state (including the
persisted records) unchanged and makes no submission network call; a
pending job rejects the call regardless of form validity. -/
theorem C3_rejectedSubmission (st : ComponentState) (resp : ApiResponse JobInProgress)
    (h : formValid st.form = false ∨ st.inProgress.isSome = true) :
    (generateImage st resp).state = st
    ∧ countSubmits (generateImage st resp).effects = 0
    ∧ ∃ k, (generateImage st resp).effects = [Effect.errorMsg k] := by
  cases hv : formValid st.form with
  | false =>
    unfold generateImage
    rw [hv]
    exact ⟨rfl, rfl, "app.error.form_invalid", rfl⟩
  | true =>
    have hip : st.inProgress.isSome = true := by
      rcases h with h1 | h2
      · rw [hv] at h1; cases h1
      · exact h2
    unfold generateImage
    rw [hv, hip]
    exact ⟨rfl, rfl, "app.error.generation_in_progress", rfl⟩

/-- C5: on a done tick whose result fetch fails, the loop surfaces the API
error and clears the busy flag, while the in-memory job, the persisted job
record, the metadata and the displayed result are all left untouched and no
exception escapes. -/
theorem C5_resultFetchFailure (st : ComponentState) (job : JobInProgress)
    (status : RequestStatusCheck) (msg : String) (rc : Nat) (f : String → FetchOutcome)
    (hip : st.inProgress = some job)
    (hposs : status.is_possible = true) (hdone : status.done = true) :
    (pollTick st (ApiResponse.success status) (ApiResponse.failure msg rc) f).state.loading = false
    ∧ (pollTick st (ApiResponse.success status) (ApiResponse.failure msg rc) f).state.inProgress
        = st.inProgress
    ∧ (pollTick st (ApiResponse.success status) (ApiResponse.failure msg rc) f).state.dbJobs
        = st.dbJobs
    ∧ (pollTick st (ApiResponse.success status) (ApiResponse.failure msg rc) f).state.result
        = st.result
    ∧ (pollTick st (ApiResponse.success status) (ApiResponse.failure msg rc) f).state.dbMeta
        = st.dbMeta
    ∧ (pollTick st (ApiResponse.success status) (ApiResponse.failure msg rc) f).effects
        = [Effect.checkStatus job.id, Effect.fetchResult job.id,
           Effect.errorMsg "app.error.api_error"]
    ∧ (pollTick st (ApiResponse.success status) (ApiResponse.failure msg rc) f).threw = none := by
  rw [pollTick_done_fetchFail st job status msg rc f hip hposs hdone]
  exact ⟨rfl, rfl, rfl, rfl, rfl, rfl, rfl⟩

/-- C7: on a non-empty generation list with cached metadata and a non-empty
fetched body, the constructed Result takes width/height from the cached
metadata, all generation attributes from the first generation entry only,
and kudos from the server response. -/
theorem C7_resultAssembly (st : ComponentState) (res : RequestStatusFull)
    (m : JobMetadata) (g : GenerationResult) (rest : List GenerationResult)
    (fetch : String → FetchOutcome) (b : Nat)
    (hg : res.generations = g :: rest)
    (hf : ∀ x ∈ res.generations, fetch x.img ≠ FetchOutcome.failure)
    (hb : fetch g.img = FetchOutcome.success (some b)) :
    (downloadImages st res (some m) fetch).state.result =
      some {
        source := st.nextUrl, width := m.width, height := m.height,
        workerId := g.worker_id, workerName := g.worker_name, model := g.model,
        seed := g.seed, id := g.id, censored := g.censored, kudos := res.kudos }
    ∧ (downloadImages st res (some m) fetch).threw = none := by
  rw [downloadImages_ok st res m g rest fetch b hg hf hb]
  exact ⟨rfl, rfl⟩

/-- C10: on a done tick whose result fetch succeeds but whose downloaded
image body is empty, the persisted JobInProgress record is deleted and the
in-memory reference cleared anyway, while no Result is constructed and the
download error is surfaced. -/
theorem C10_emptyBodyDiscard (st : ComponentState) (job : JobInProgress)
    (status : RequestStatusCheck) (res : RequestStatusFull)
    (g : GenerationResult) (rest : List GenerationResult)
    (fetch : String → FetchOutcome)
    (hip : st.inProgress = some job) (hdb : st.dbJobs = [job])
    (hposs : status.is_possible = true) (hdone : status.done = true)
    (hg : res.generations = g :: rest)
    (hf : ∀ x ∈ res.generations, fetch x.img ≠ FetchOutcome.failure)
    (hb : fetch g.img = FetchOutcome.success none) :
    (pollTick st (ApiResponse.success status) (ApiResponse.success res) fetch).state.inProgress
      = none
    ∧ (pollTick st (ApiResponse.success status) (ApiResponse.success res) fetch).state.dbJobs = []
    ∧ (pollTick st (ApiResponse.success status) (ApiResponse.success res) fetch).state.result
        = st.result
    ∧ Effect.errorMsg "app.error.image_download_failed"
        ∈ (pollTick st (ApiResponse.success status) (ApiResponse.success res) fetch).effects
    ∧ (pollTick st (ApiResponse.success status) (ApiResponse.success res) fetch).threw = none := by
  rw [pollTick_done_nullBody st job status res g rest fetch hip hposs hdone hg hf hb]
  refine ⟨rfl, ?_, rfl, ?_, rfl⟩
  · show deleteInProgressJob st.dbJobs job = []
    rw [hdb]
    exact deleteInProgressJob_self job
  · simp

/-- C1: over a run of three ticks whose status checks return
[not-done, possible], [not-done, possible], [done], with the result fetch
and the image download succeeding, the loop performs no cancellation call
and exactly one result fetch, and after the done tick both the persisted
JobInProgress record and the in-memory reference are gone. -/
theorem C1_threeTickRun (st : ComponentState) (job : JobInProgress)
    (s1 s2 s3 : RequestStatusCheck) (res : RequestStatusFull)
    (g : GenerationResult) (rest : List GenerationResult) (m : JobMetadata) (b : Nat)
    (fetch f1 f2 : String → FetchOutcome) (rr1 rr2 : ApiResponse RequestStatusFull)
    (hip : st.inProgress = some job) (hdb : st.dbJobs = [job])
    (h1p : s1.is_possible = true) (h1d : s1.done = false)
    (h2p : s2.is_possible = true) (h2d : s2.done = false)
    (h3p : s3.is_possible = true) (h3d : s3.done = true)
    (hg : res.generations = g :: rest)
    (hf : ∀ x ∈ res.generations, fetch x.img ≠ FetchOutcome.failure)
    (hb : fetch g.img = FetchOutcome.success (some b))
    (hm : getJobMetadata st.dbMeta job = some m) :
    countCancels (runTicks st [⟨ApiResponse.success s1, rr1, f1⟩,
      ⟨ApiResponse.success s2, rr2, f2⟩,
      ⟨ApiResponse.success s3, ApiResponse.success res, fetch⟩]).2 = 0
    ∧ countResultFetches (runTicks st [⟨ApiResponse.success s1, rr1, f1⟩,
      ⟨ApiResponse.success s2, rr2, f2⟩,
      ⟨ApiResponse.success s3, ApiResponse.success res, fetch⟩]).2 = 1
    ∧ (runTicks st [⟨ApiResponse.success s1, rr1, f1⟩,
      ⟨ApiResponse.success s2, rr2, f2⟩,
      ⟨ApiResponse.success s3, ApiResponse.success res, fetch⟩]).1.inProgress = none
    ∧ (runTicks st [⟨ApiResponse.success s1, rr1, f1⟩,
      ⟨ApiResponse.success s2, rr2, f2⟩,
      ⟨ApiResponse.success s3, ApiResponse.success res, fetch⟩]).1.dbJobs = [] := by
  have e1 := pollTick_continue st job s1 rr1 f1 hip h1p h1d
  have e2 := pollTick_continue { st with requestStatus := some s1 } job s2 rr2 f2 hip h2p h2d
  have e3 := pollTick_done_ok { st with requestStatus := some s2 } job s3 res g rest m b fetch
    hip h3p h3d hg hf hb hm
  simp only [runTicks, e1, e2, e3]
  refine ⟨?_, ?_, trivial, ?_⟩
  · simp [countCancels, List.countP_append, List.countP_cons, isCancel,
      countP_cancel_fetchImages]
  · simp [countResultFetches, List.countP_append, List.countP_cons, isResultFetch,
      countP_resultFetch_fetchImages]
  · show deleteInProgressJob st.dbJobs job = []
    rw [hdb]
    exact deleteInProgressJob_self job

/-- C4: a submission whose preconditions hold and whose API call succeeds
leaves exactly one persisted JobInProgress record, equal to the in-memory
one, and persists a JobMetadata record carrying the submitted options'
width and height keyed by the returned request id. -/
theorem C4_persistedSubmission (st : ComponentState) (job : JobInProgress)
    (hv : formValid st.form = true) (hip : st.inProgress = none) (hdb : st.dbJobs = []) :
    (generateImage st (ApiResponse.success job)).state.dbJobs = [job]
    ∧ (generateImage st (ApiResponse.success job)).state.inProgress = some job
    ∧ getJobMetadata (generateImage st (ApiResponse.success job)).state.dbMeta job =
        some { requestId := job.id,
               width := (formAsOptions st.form).width,
               height := (formAsOptions st.form).height } := by
  unfold generateImage
  cases hres : st.result with
  | none =>
    simp [hv, hip, hres, hdb, addInProgressJob, getJobMetadata, storeJobMetadata]
  | some r0 =>
    simp [hv, hip, hres, hdb, addInProgressJob, getJobMetadata, storeJobMetadata]

/-- C9: the "Job cannot be null" exception in the done branch is
unreachable: every tick returns early when no in-memory job exists, so the
resolved job in the done branch is always non-null. -/
theorem C9_jobNullUnreachable (st : ComponentState) (sr : ApiResponse RequestStatusCheck)
    (rr : ApiResponse RequestStatusFull) (fetch : String → FetchOutcome) :
    (pollTick st sr rr fetch).threw ≠ some "Job cannot be null" := by
  cases hip : st.inProgress with
  | none =>
    rw [pollTick_noJob st sr rr fetch hip]
    simp
  | some job =>
    cases sr with
    | failure msg rc =>
      rw [pollTick_statusFail st job msg rc rr fetch hip]
      simp
    | success status =>
      by_cases hposs : status.is_possible = true
      · by_cases hdone : status.done = true
        · cases rr with
          | failure msg rc =>
            rw [pollTick_done_fetchFail st job status msg rc fetch hip hposs hdone]
            simp
          | success res =>
            have hne := downloadImages_threw_ne
              { st with requestStatus := some status, loading := true, inProgress := some job }
              res (getJobMetadata st.dbMeta job) fetch
            unfold pollTick
            rw [hip]
            cases hdlt : (downloadImages
                { st with requestStatus := some status, loading := true, inProgress := some job }
                res (getJobMetadata st.dbMeta job) fetch).threw with
            | none =>
              cases hdls : (downloadImages
                  { st with requestStatus := some status, loading := true, inProgress := some job }
                  res (getJobMetadata st.dbMeta job) fetch).state.inProgress with
              | none => simp [hposs, hdone, hip, hdlt, hdls]
              | some j => simp [hposs, hdone, hip, hdlt, hdls]
            | some e =>
              rw [hdlt] at hne
              simp [hposs, hdone, hip, hdlt]
              intro he
              exact hne (by rw [he])
        · rw [pollTick_continue st job status rr fetch hip hposs (by simpa using hdone)]
          simp
      · rw [pollTick_impossible st job status rr fetch hip (by simpa using hposs)]
        simp

/-- C6 counterexample: at a concrete invocation whose binary fetch fails,
downloadImages reports no user-facing error at all (the rejection simply
propagates as an exception), refuting the claim that a fetch failure is
reported as a user-facing error. -/
theorem C6_counterexample :
    noUserError (downloadImages exStateIdle { generations := [exGen], kudos := 0 }
      none (fun _ => FetchOutcome.failure)).effects = true
    ∧ (downloadImages exStateIdle { generations := [exGen], kudos := 0 }
        none (fun _ => FetchOutcome.failure)).state.result = exStateIdle.result
    ∧ (downloadImages exStateIdle { generations := [exGen], kudos := 0 }
        none (fun _ => FetchOutcome.failure)).threw = some "fetch rejected" := by
  refine ⟨rfl, rfl, rfl⟩

/-- C6 amended: if the fetched response body is empty, a user-facing error
is reported and no Result is constructed; if the binary fetch fails, no
Result is constructed either, but no user-facing error is reported — the
failure propagates as an exception instead. -/
theorem C6_amended (st : ComponentState) (res : RequestStatusFull)
    (meta : Option JobMetadata) (fetch : String → FetchOutcome)
    (g : GenerationResult) (rest : List GenerationResult)
    (hg : res.generations = g :: rest) :
    ((∃ x ∈ res.generations, fetch x.img = FetchOutcome.failure) →
      noUserError (downloadImages st res meta fetch).effects = true
      ∧ (downloadImages st res meta fetch).state.result = st.result
      ∧ (downloadImages st res meta fetch).threw = some "fetch rejected")
    ∧ ((∀ x ∈ res.generations, fetch x.img ≠ FetchOutcome.failure) →
      fetch g.img = FetchOutcome.success none →
      Effect.errorMsg "app.error.image_download_failed"
        ∈ (downloadImages st res meta fetch).effects
      ∧ (downloadImages st res meta fetch).state.result = st.result
      ∧ (downloadImages st res meta fetch).threw = none) := by
  constructor
  · intro hex
    have hfail : anyFailed (res.generations.map (fun x => fetch x.img)) = true := by
      apply anyFailed_eq_true
      obtain ⟨x, hx, hxe⟩ := hex
      exact ⟨fetch x.img, List.mem_map_of_mem (fun y => fetch y.img) hx, hxe⟩
    rw [downloadImages_anyFailed st res meta fetch hfail]
    exact ⟨noUserError_fetchImages res.generations, rfl, rfl⟩
  · intro hf hb
    rw [downloadImages_nullBody st res meta g rest fetch hg hf hb]
    refine ⟨?_, rfl, rfl⟩
    simp

/-- C8: an accepted submission that replaces a displayed Result revokes the
old binary handle strictly before the submission network call, clears the
result reference, and preserves the liveness invariant on handles, so a
Result constructed by any later download never references a released
resource. -/
theorem C8_releaseBeforeSubmit (st : ComponentState) (resp : ApiResponse JobInProgress)
    (r0 : Result)
    (hv : formValid st.form = true) (hip : st.inProgress = none)
    (hres : st.result = some r0) (hok : handlesOk st) :
    (generateImage st resp).effects.take 2 = [Effect.revokeUrl r0.source, Effect.submitJob]
    ∧ (generateImage st resp).state.result = none
    ∧ handlesOk (generateImage st resp).state
    ∧ ∀ res meta fetch,
        handlesOk (downloadImages (generateImage st resp).state res meta fetch).state := by
  have hrev : ∀ u ∈ r0.source :: st.revoked, u < st.nextUrl := by
    intro u hu
    rcases List.mem_cons.mp hu with h1 | h2
    · rw [h1]; exact (hok.1 r0 hres).1
    · exact hok.2 u h2
  cases resp with
  | failure msg rc =>
    unfold generateImage
    simp only [hv, hip, hres, Bool.not_true, Bool.false_eq_true, if_false,
      Option.isSome_none, ite_false, ite_true]
    refine ⟨by trivial, by trivial, ⟨?_, ?_⟩, ?_⟩
    · intro r hr; cases hr
    · exact hrev
    · intro res meta fetch
      exact handlesOk_downloadImages _ res meta fetch rfl hrev
  | success job =>
    unfold generateImage
    simp only [hv, hip, hres, Bool.not_true, Bool.false_eq_true, if_false,
      Option.isSome_none, ite_false, ite_true]
    refine ⟨by trivial, by trivial, ⟨?_, ?_⟩, ?_⟩
    · intro r hr; cases hr
    · exact hrev
    · intro res meta fetch
      exact handlesOk_downloadImages _ res meta fetch rfl hrev

/-! Witnesses: each hypothesized claim theorem applied at concrete inputs. -/

theorem C1_threeTickRun_witness :
    countCancels (runTicks exStateJob [⟨ApiResponse.success stNotDone, ApiResponse.success exRes, fetchOk⟩,
      ⟨ApiResponse.success stNotDone, ApiResponse.success exRes, fetchOk⟩,
      ⟨ApiResponse.success stDone, ApiResponse.success exRes, fetchOk⟩]).2 = 0
    ∧ countResultFetches (runTicks exStateJob [⟨ApiResponse.success stNotDone, ApiResponse.success exRes, fetchOk⟩,
      ⟨ApiResponse.success stNotDone, ApiResponse.success exRes, fetchOk⟩,
      ⟨ApiResponse.success stDone, ApiResponse.success exRes, fetchOk⟩]).2 = 1
    ∧ (runTicks exStateJob [⟨ApiResponse.success stNotDone, ApiResponse.success exRes, fetchOk⟩,
      ⟨ApiResponse.success stNotDone, ApiResponse.success exRes, fetchOk⟩,
      ⟨ApiResponse.success stDone, ApiResponse.success exRes, fetchOk⟩]).1.inProgress = none
    ∧ (runTicks exStateJob [⟨ApiResponse.success stNotDone, ApiResponse.success exRes, fetchOk⟩,
      ⟨ApiResponse.success stNotDone, ApiResponse.success exRes, fetchOk⟩,
      ⟨ApiResponse.success stDone, ApiResponse.success exRes, fetchOk⟩]).1.dbJobs = [] :=
  C1_threeTickRun exStateJob exJob stNotDone stNotDone stDone exRes exGen [exGen2] exMeta 5
    fetchOk fetchOk fetchOk (ApiResponse.success exRes) (ApiResponse.success exRes)
    rfl rfl rfl rfl rfl rfl rfl rfl rfl (by decide) rfl rfl

theorem C2_impossibleTerminal_witness :
    countCancels (pollTick exStateJob (ApiResponse.success stImpossible)
      (ApiResponse.success exRes) fetchOk).effects = 1
    ∧ countResultFetches (pollTick exStateJob (ApiResponse.success stImpossible)
        (ApiResponse.success exRes) fetchOk).effects = 0
    ∧ (pollTick exStateJob (ApiResponse.success stImpossible)
        (ApiResponse.success exRes) fetchOk).state.inProgress = none
    ∧ (pollTick exStateJob (ApiResponse.success stImpossible)
        (ApiResponse.success exRes) fetchOk).state.dbJobs = []
    ∧ Effect.errorMsg "app.error.generate.impossible"
        ∈ (pollTick exStateJob (ApiResponse.success stImpossible)
            (ApiResponse.success exRes) fetchOk).effects
    ∧ ∀ sr2 rr2 f2, pollTick (pollTick exStateJob (ApiResponse.success stImpossible)
          (ApiResponse.success exRes) fetchOk).state sr2 rr2 f2 =
        { state := (pollTick exStateJob (ApiResponse.success stImpossible)
            (ApiResponse.success exRes) fetchOk).state,
          effects := [], threw := none } :=
  C2_impossibleTerminal exStateJob exJob stImpossible (ApiResponse.success exRes) fetchOk
    rfl rfl rfl

theorem C3_rejectedSubmission_witness :
    (generateImage exStateJob (ApiResponse.success exJob)).state = exStateJob
    ∧ countSubmits (generateImage exStateJob (ApiResponse.success exJob)).effects = 0
    ∧ ∃ k, (generateImage exStateJob (ApiResponse.success exJob)).effects
        = [Effect.errorMsg k] :=
  C3_rejectedSubmission exStateJob (ApiResponse.success exJob) (Or.inr rfl)

theorem C4_persistedSubmission_witness :
    (generateImage exStateIdle (ApiResponse.success exJob)).state.dbJobs = [exJob]
    ∧ (generateImage exStateIdle (ApiResponse.success exJob)).state.inProgress = some exJob
    ∧ getJobMetadata (generateImage exStateIdle (ApiResponse.success exJob)).state.dbMeta exJob =
        some { requestId := exJob.id,
               width := (formAsOptions exStateIdle.form).width,
               height := (formAsOptions exStateIdle.form).height } :=
  C4_persistedSubmission exStateIdle exJob formValid_exForm rfl rfl

theorem C5_resultFetchFailure_witness :
    (pollTick exStateJob (ApiResponse.success stDone)
      (ApiResponse.failure "boom" 500) fetchOk).state.loading = false
    ∧ (pollTick exStateJob (ApiResponse.success stDone)
        (ApiResponse.failure "boom" 500) fetchOk).state.inProgress = exStateJob.inProgress
    ∧ (pollTick exStateJob (ApiResponse.success stDone)
        (ApiResponse.failure "boom" 500) fetchOk).state.dbJobs = exStateJob.dbJobs
    ∧ (pollTick exStateJob (ApiResponse.success stDone)
        (ApiResponse.failure "boom" 500) fetchOk).state.result = exStateJob.result
    ∧ (pollTick exStateJob (ApiResponse.success stDone)
        (ApiResponse.failure "boom" 500) fetchOk).state.dbMeta = exStateJob.dbMeta
    ∧ (pollTick exStateJob (ApiResponse.success stDone)
        (ApiResponse.failure "boom" 500) fetchOk).effects
        = [Effect.checkStatus exJob.id, Effect.fetchResult exJob.id,
           Effect.errorMsg "app.error.api_error"]
    ∧ (pollTick exStateJob (ApiResponse.success stDone)
        (ApiResponse.failure "boom" 500) fetchOk).threw = none :=
  C5_resultFetchFailure exStateJob exJob stDone "boom" 500 fetchOk rfl rfl rfl

theorem C6_amended_witness :
    ((∃ x ∈ exRes.generations, fetchNull x.img = FetchOutcome.failure) →
      noUserError (downloadImages exStateIdle exRes none fetchNull).effects = true
      ∧ (downloadImages exStateIdle exRes none fetchNull).state.result = exStateIdle.result
      ∧ (downloadImages exStateIdle exRes none fetchNull).threw = some "fetch rejected")
    ∧ ((∀ x ∈ exRes.generations, fetchNull x.img ≠ FetchOutcome.failure) →
      fetchNull exGen.img = FetchOutcome.success none →
      Effect.errorMsg "app.error.image_download_failed"
        ∈ (downloadImages exStateIdle exRes none fetchNull).effects
      ∧ (downloadImages exStateIdle exRes none fetchNull).state.result = exStateIdle.result
      ∧ (downloadImages exStateIdle exRes none fetchNull).threw = none) :=
  C6_amended exStateIdle exRes none fetchNull exGen [exGen2] rfl

theorem C7_resultAssembly_witness :
    (downloadImages exStateIdle exRes (some exMeta) fetchOk).state.result =
      some {
        source := exStateIdle.nextUrl, width := exMeta.width, height := exMeta.height,
        workerId := exGen.worker_id, workerName := exGen.worker_name, model := exGen.model,
        seed := exGen.seed, id := exGen.id, censored := exGen.censored, kudos := exRes.kudos }
    ∧ (downloadImages exStateIdle exRes (some exMeta) fetchOk).threw = none :=
  C7_resultAssembly exStateIdle exRes exMeta exGen [exGen2] fetchOk 5 rfl (by decide) rfl

theorem C8_releaseBeforeSubmit_witness :
    (generateImage exStateShown (ApiResponse.success exJob)).effects.take 2
      = [Effect.revokeUrl exResult.source, Effect.submitJob]
    ∧ (generateImage exStateShown (ApiResponse.success exJob)).state.result = none
    ∧ handlesOk (generateImage exStateShown (ApiResponse.success exJob)).state
    ∧ ∀ res meta fetch, handlesOk (downloadImages
        (generateImage exStateShown (ApiResponse.success exJob)).state res meta fetch).state :=
  C8_releaseBeforeSubmit exStateShown (ApiResponse.success exJob) exResult formValid_exForm rfl rfl
    ⟨fun r hr => by
      simp only [exStateShown, Option.some_inj] at hr
      rw [← hr]
      decide,
     fun u hu => by simp [exStateShown] at hu⟩

theorem C10_emptyBodyDiscard_witness :
    (pollTick exStateJob (ApiResponse.success stDone)
      (ApiResponse.success exRes) fetchNull).state.inProgress = none
    ∧ (pollTick exStateJob (ApiResponse.success stDone)
        (ApiResponse.success exRes) fetchNull).state.dbJobs = []
    ∧ (pollTick exStateJob (ApiResponse.success stDone)
        (ApiResponse.success exRes) fetchNull).state.result = exStateJob.result
    ∧ Effect.errorMsg "app.error.image_download_failed"
        ∈ (pollTick exStateJob (ApiResponse.success stDone)
            (ApiResponse.success exRes) fetchNull).effects
    ∧ (pollTick exStateJob (ApiResponse.success stDone)
        (ApiResponse.success exRes) fetchNull).threw = none :=
  C10_emptyBodyDiscard exStateJob exJob stDone exRes exGen [exGen2] fetchNull
    rfl rfl rfl rfl rfl (by decide) rfl

end HordeNG
